import Mathlib

set_option linter.unusedVariables false

/-!
Shallow embedding of wazero's internal host filesystem layer:
  * `internal/sysfs/readfs.go`   — read-only wrapper (`readFS`, `readFile`)
  * `internal/sysfs/adapter.go`  — generic fs.FS adapter (`adapter`, `cleanPath`)
  * `internal/platform` file.go  — native-backed `fsFile`
  * `internal/platform/wrap_windows.go` — Windows quirk layer

Machine structure is modelled with explicit state passing; native backends
are abstracted as parameters (result tables / capability flags), and each
operation additionally returns the list of native events it performed so
that "performs no native syscall" style properties are expressible.
-/

/-- Model of `syscall.Errno` as used by this layer. `ok` is errno 0 (success);
`eOther n` stands for any other concrete errno value `n`. -/
inductive Errno where
  | ok
  | eNOSYS
  | eBADF
  | eISDIR
  | eNOTDIR
  | eINVAL
  | eROFS
  | eIOERR
  | eOther (n : Nat)
deriving DecidableEq, Repr

/-- Go `os.O_RDONLY` (= `syscall.O_RDONLY`), zero on every Go platform. -/
def oRDONLY : Nat := 0

/-- Go `os.O_WRONLY`. -/
def oWRONLY : Nat := 1

/-- Go `os.O_RDWR`. -/
def oRDWR : Nat := 2

/-- Go `fs.ModeDir` = 1 << 31. -/
def modeDir : Nat := 2 ^ 31

/-- Go `fs.ModeSymlink` = 1 << 27. -/
def modeSymlink : Nat := 2 ^ 27

/-- Go `fs.ModeDevice` = 1 << 26. -/
def modeDevice : Nat := 2 ^ 26

/-- Go `fs.ModeNamedPipe` = 1 << 25. -/
def modeNamedPipe : Nat := 2 ^ 25

/-- Go `fs.ModeSocket` = 1 << 24. -/
def modeSocket : Nat := 2 ^ 24

/-- Go `fs.ModeCharDevice` = 1 << 21. -/
def modeCharDevice : Nat := 2 ^ 21

/-- Go `fs.ModeIrregular` = 1 << 19. -/
def modeIrregular : Nat := 2 ^ 19

/-- Go `fs.ModeType` = ModeDir | ModeSymlink | ModeNamedPipe | ModeSocket |
ModeDevice | ModeCharDevice | ModeIrregular. -/
def modeType : Nat :=
  modeDir ||| modeSymlink ||| modeNamedPipe ||| modeSocket |||
    modeDevice ||| modeCharDevice ||| modeIrregular

/-- Go `fs.FileMode.IsDir`: `m & ModeDir != 0`. -/
def fileModeIsDir (m : Nat) : Bool := m &&& modeDir ≠ 0

/-! ## readfs.go: the read-only wrapper `readFS` / `readFile` -/

/-- The `readFile` decorator produced by `readFS.OpenFile` on success:
`&readFile{f: f}` wrapping the inner `platform.File`. -/
structure ReadFileW (α : Type) where
  f : α
deriving DecidableEq, Repr

/-- Source `readFS.OpenFile` (readfs.go):
```
switch flag & (os.O_RDONLY | os.O_WRONLY | os.O_RDWR) {
case os.O_WRONLY, os.O_RDWR:
    return nil, syscall.ENOSYS
default:
}
f, errno := r.fs.OpenFile(path, flag, perm)
if errno != 0 { return nil, errno }
return &readFile{f: f}, 0
```
The wrapped filesystem's `OpenFile` is abstracted as `innerOpen`. -/
def readFS_OpenFile {α : Type} (innerOpen : String → Nat → Nat → Option α × Errno)
    (path : String) (flag perm : Nat) : Option (ReadFileW α) × Errno :=
  let m := flag &&& (oRDONLY ||| oWRONLY ||| oRDWR)
  if m = oWRONLY ∨ m = oRDWR then
    (none, Errno.eNOSYS)
  else
    match innerOpen path flag perm with
    | (f, errno) =>
      if errno ≠ Errno.ok then (none, errno)
      else ((f.map ReadFileW.mk), Errno.ok)

/-- The state of the inner `platform.File` that a `readFile` wraps, as far as
the wrapper's own methods inspect it: only `IsDir()`'s result matters
(a pair: the boolean and its errno). -/
structure RInner where
  isDirRes : Bool × Errno
deriving DecidableEq, Repr

/-- Source `readFile.writeErr` (readfs.go):
```
if isDir, errno := r.IsDir(); errno != 0 { return errno }
else if isDir { return syscall.EISDIR }
return syscall.EBADF
```
(`r.IsDir()` delegates to the wrapped file's `IsDir`.) -/
def readFile_writeErr (inner : RInner) : Errno :=
  let isDir := inner.isDirRes.1
  let errno := inner.isDirRes.2
  if errno ≠ Errno.ok then errno
  else if isDir then Errno.eISDIR
  else Errno.eBADF

/-- Source `readFile.Write`: `return 0, r.writeErr()`. `bufLen` is `len(p)`. -/
def readFile_Write (inner : RInner) (bufLen : Nat) : Nat × Errno :=
  (0, readFile_writeErr inner)

/-- Source `readFile.Pwrite`: `return 0, r.writeErr()`. -/
def readFile_Pwrite (inner : RInner) (bufLen : Nat) (off : Int) : Nat × Errno :=
  (0, readFile_writeErr inner)

/-- Source `readFile.Truncate`: `return r.writeErr()`. -/
def readFile_Truncate (inner : RInner) (size : Int) : Errno :=
  readFile_writeErr inner

/-- Source `readFile.Chmod`: `return syscall.EBADF` (unconditionally). -/
def readFile_Chmod (inner : RInner) (mode : Nat) : Errno :=
  Errno.eBADF

/-- Source `readFile.Chown`: `return syscall.EBADF` (unconditionally). -/
def readFile_Chown (inner : RInner) (uid gid : Int) : Errno :=
  Errno.eBADF

/-- Source `readFile.Utimens`: `return syscall.EBADF` (unconditionally).
`times` is abstracted as an opaque-but-inert `Option` of a pair. -/
def readFile_Utimens (inner : RInner) (times : Option (Int × Int)) : Errno :=
  Errno.eBADF

/-- Source `readFS.Mkdir`: `return syscall.EROFS`. The wrapped filesystem `innerFS`
is a parameter of arbitrary type: the result never consults it. -/
def readFS_Mkdir {α : Type} (innerFS : α) (path : String) (perm : Nat) : Errno :=
  Errno.eROFS

/-- Source `readFS.Chmod`: `return syscall.EROFS`. -/
def readFS_Chmod {α : Type} (innerFS : α) (path : String) (perm : Nat) : Errno :=
  Errno.eROFS

/-- Source `readFS.Chown`: `return syscall.EROFS`. -/
def readFS_Chown {α : Type} (innerFS : α) (path : String) (uid gid : Int) : Errno :=
  Errno.eROFS

/-- Source `readFS.Lchown`: `return syscall.EROFS`. -/
def readFS_Lchown {α : Type} (innerFS : α) (path : String) (uid gid : Int) : Errno :=
  Errno.eROFS

/-- Source `readFS.Rename`: `return syscall.EROFS`. -/
def readFS_Rename {α : Type} (innerFS : α) (fromP toP : String) : Errno :=
  Errno.eROFS

/-- Source `readFS.Rmdir`: `return syscall.EROFS`. -/
def readFS_Rmdir {α : Type} (innerFS : α) (path : String) : Errno :=
  Errno.eROFS

/-- Source `readFS.Link`: `return syscall.EROFS`. -/
def readFS_Link {α : Type} (innerFS : α) (oldP newP : String) : Errno :=
  Errno.eROFS

/-- Source `readFS.Symlink`: `return syscall.EROFS`. -/
def readFS_Symlink {α : Type} (innerFS : α) (oldP newP : String) : Errno :=
  Errno.eROFS

/-- Source `readFS.Unlink`: `return syscall.EROFS`. -/
def readFS_Unlink {α : Type} (innerFS : α) (path : String) : Errno :=
  Errno.eROFS

/-- Source `readFS.Utimens`: `return syscall.EROFS`. -/
def readFS_Utimens {α : Type} (innerFS : α) (path : String)
    (times : Option (Int × Int)) (symlinkFollow : Bool) : Errno :=
  Errno.eROFS

/-- Source `readFS.Truncate`: `return syscall.EROFS`. -/
def readFS_Truncate {α : Type} (innerFS : α) (path : String) (size : Int) : Errno :=
  Errno.eROFS

/-! ## platform file.go: the native-backed `fsFile`

The backing `fs.File` is abstracted: capability probes (`io.Reader`,
`io.ReaderAt`, `io.Writer` type assertions) become Boolean flags, native
call results become result tables, and each operation also returns the list
of native operations it performed. `UnwrapOSError` is abstracted as the
identity on the `Errno` the backend reports. -/

/-- A native operation performed against the backing handle. -/
inductive NOp where
  | statN
  | readN
  | readAtN
  | writeN
deriving DecidableEq, Repr

/-- The mutable part of an `fsFile`: its fixed access mode and the lazily
cached file type (`cachedSt`, holding `st.Mode & fs.ModeType`). -/
structure MFile where
  accessMode : Nat
  cached : Option Nat
deriving DecidableEq, Repr

/-- The abstracted backing handle of an `fsFile`. -/
structure MBack where
  /-- errno produced by `statFile` on this handle. -/
  statErrno : Errno
  /-- Source `st.Mode` produced by `statFile` when it succeeds. -/
  statMode : Nat
  /-- whether the handle satisfies the `io.Reader` type assertion. -/
  hasReader : Bool
  /-- native sequential read result, from the buffer length. -/
  readRes : Nat → Nat × Errno
  /-- whether the handle satisfies the `io.ReaderAt` type assertion. -/
  hasReaderAt : Bool
  /-- native `ReadAt` result, from the buffer length and offset. -/
  readAtRes : Nat → Int → Nat × Errno
  /-- whether the handle satisfies the `io.Writer` type assertion. -/
  hasWriter : Bool
  /-- native write result, from the buffer length. -/
  writeRes : Nat → Nat × Errno

/-- Source `fsFile.Stat`:
```
st, errno := statFile(f.file)
switch errno {
case 0: f.cachedSt = &cachedStat{fileType: st.Mode & fs.ModeType}
case syscall.EIO: errno = syscall.EBADF
}
return st, errno
```
Returns `((mode, errno), state, native operations)`. -/
def mStat (b : MBack) (s : MFile) : (Nat × Errno) × MFile × List NOp :=
  if b.statErrno = Errno.ok then
    ((b.statMode, Errno.ok),
      { s with cached := some (b.statMode &&& modeType) }, [NOp.statN])
  else
    let errno := if b.statErrno = Errno.eIOERR then Errno.eBADF else b.statErrno
    ((0, errno), s, [NOp.statN])

/-- Source `fsFile.cachedStat`:
```
if f.cachedSt == nil {
    if _, errno = f.Stat(); errno != 0 { return }
}
return f.cachedSt.fileType, 0
``` -/
def cachedStatM (b : MBack) (s : MFile) : (Nat × Errno) × MFile × List NOp :=
  match s.cached with
  | none =>
    match mStat b s with
    | ((_, e), s1, t) =>
      if e ≠ Errno.ok then ((0, e), s1, t)
      else ((s1.cached.getD 0, Errno.ok), s1, t)
  | some ft => ((ft, Errno.ok), s, [])

/-- Source `fsFile.IsDir`:
```
if ft, errno := f.cachedStat(); errno != 0 { return false, errno }
else if ft.Type() == fs.ModeDir { return true, 0 }
return false, 0
``` -/
def isDirM (b : MBack) (s : MFile) : (Bool × Errno) × MFile × List NOp :=
  match cachedStatM b s with
  | ((ft, e), s1, t) =>
    if e ≠ Errno.ok then ((false, e), s1, t)
    else if ft &&& modeType = modeDir then ((true, Errno.ok), s1, t)
    else ((false, Errno.ok), s1, t)

/-- Source `fsFile.isDirErrno`:
```
if isDir, errno := f.IsDir(); errno != 0 { return errno }
else if isDir { return syscall.EISDIR }
return 0
``` -/
def isDirErrnoM (b : MBack) (s : MFile) : Errno × MFile × List NOp :=
  match isDirM b s with
  | ((isDir, e), s1, t) =>
    if e ≠ Errno.ok then (e, s1, t)
    else if isDir then (Errno.eISDIR, s1, t)
    else (Errno.ok, s1, t)

/-- Source `fsFile.Read` (`bufLen` is `len(p)`):
```
if len(p) == 0 { return 0, 0 }
if errno = f.isDirErrno(); errno != 0 { return }
else if f.accessMode == syscall.O_WRONLY { return 0, syscall.EBADF }
if w, ok := f.file.(io.Reader); ok { n, err := w.Read(p); return n, UnwrapOSError(err) }
return 0, syscall.EBADF
``` -/
def mRead (b : MBack) (s : MFile) (bufLen : Nat) : (Nat × Errno) × MFile × List NOp :=
  if bufLen = 0 then ((0, Errno.ok), s, [])
  else
    match isDirErrnoM b s with
    | (e, s1, t) =>
      if e ≠ Errno.ok then ((0, e), s1, t)
      else if s1.accessMode = oWRONLY then ((0, Errno.eBADF), s1, t)
      else if b.hasReader then (b.readRes bufLen, s1, t ++ [NOp.readN])
      else ((0, Errno.eBADF), s1, t)

/-- Source `fsFile.Write`:
```
if errno = f.isDirErrno(); errno != 0 { return }
else if f.accessMode == syscall.O_RDONLY { return 0, syscall.EBADF }
if len(p) == 0 { return 0, 0 }
if w, ok := f.file.(io.Writer); ok { n, err := w.Write(p); return n, UnwrapOSError(err) }
return 0, syscall.ENOSYS
```
Note the zero-length short-circuit comes after the directory and
access-mode checks, unlike `Read`. -/
def mWrite (b : MBack) (s : MFile) (bufLen : Nat) : (Nat × Errno) × MFile × List NOp :=
  match isDirErrnoM b s with
  | (e, s1, t) =>
    if e ≠ Errno.ok then ((0, e), s1, t)
    else if s1.accessMode = oRDONLY then ((0, Errno.eBADF), s1, t)
    else if bufLen = 0 then ((0, Errno.ok), s1, t)
    else if b.hasWriter then (b.writeRes bufLen, s1, t ++ [NOp.writeN])
    else ((0, Errno.eNOSYS), s1, t)

/-- Source `fsFile.Pread`, for a backing handle probed for `io.ReaderAt`:
```
if len(p) == 0 { return 0, 0 }
if errno = f.isDirErrno(); errno != 0 { return }
else if f.accessMode == syscall.O_WRONLY { return 0, syscall.EBADF }
if w, ok := f.file.(io.ReaderAt); ok { n, err := w.ReadAt(p, off); return n, UnwrapOSError(err) }
... // io.ReadSeeker fallback, embedded separately as fsPreadSeek
return 0, syscall.ENOSYS
```
When `hasReaderAt` is false this model takes the no-capability exit; the
intermediate `io.ReadSeeker` fallback branch is embedded separately (with
its seek-offset state) as `fsPreadSeek`. -/
def mPread (b : MBack) (s : MFile) (bufLen : Nat) (off : Int) :
    (Nat × Errno) × MFile × List NOp :=
  if bufLen = 0 then ((0, Errno.ok), s, [])
  else
    match isDirErrnoM b s with
    | (e, s1, t) =>
      if e ≠ Errno.ok then ((0, e), s1, t)
      else if s1.accessMode = oWRONLY then ((0, Errno.eBADF), s1, t)
      else if b.hasReaderAt then (b.readAtRes bufLen off, s1, t ++ [NOp.readAtN])
      else ((0, Errno.eNOSYS), s1, t)

/-! ## platform file.go: the `io.ReadSeeker` fallback of `fsFile.Pread`

For a backing handle that supports seek + sequential read but not
`io.ReaderAt`, the whole handle is modelled concretely: content bytes plus
a seek position, with `Seek`/`Read` behaving like `os.File` (seeking to a
negative absolute offset fails EINVAL and leaves the position unchanged;
reading past the end transfers zero bytes). -/

/-- A seekable, sequentially readable backing handle (no `io.ReaderAt`),
together with the `fsFile` fields relevant to `Pread`. -/
structure SFile where
  accessMode : Nat
  /-- errno produced by `statFile` on this handle. -/
  statErrno : Errno
  /-- Source `st.Mode & fs.ModeType` when stat succeeds. -/
  ftype : Nat
  /-- the `fsFile` lazily cached file type. -/
  cached : Option Nat
  /-- the byte content of the backing handle. -/
  content : List Nat
  /-- the handle's current sequential offset. -/
  pos : Nat
deriving DecidableEq, Repr

/-- Source `fsFile.Stat` restricted to this handle (caches the type on success,
remaps EIO to EBADF). -/
def statSF (s : SFile) : Errno × SFile :=
  if s.statErrno = Errno.ok then (Errno.ok, { s with cached := some s.ftype })
  else if s.statErrno = Errno.eIOERR then (Errno.eBADF, s)
  else (s.statErrno, s)

/-- Source `fsFile.isDirErrno` restricted to this handle (via `cachedStat`/`IsDir`). -/
def isDirErrnoSF (s : SFile) : Errno × SFile :=
  match s.cached with
  | none =>
    match statSF s with
    | (e, s1) =>
      if e ≠ Errno.ok then (e, s1)
      else if (s1.cached.getD 0) &&& modeType = modeDir then (Errno.eISDIR, s1)
      else (Errno.ok, s1)
  | some ft =>
    if ft &&& modeType = modeDir then (Errno.eISDIR, s)
    else (Errno.ok, s)

/-- Source `Seek(target, io.SeekStart)` on the backing handle: fails EINVAL on a
negative target, otherwise sets the position. -/
def seekSF (s : SFile) (target : Int) : Errno × SFile :=
  if target < 0 then (Errno.eINVAL, s)
  else (Errno.ok, { s with pos := target.toNat })

/-- Sequential `Read` on the backing handle: transfers
`min bufLen (remaining)` bytes and advances the position by that count.
Returns the bytes transferred (for read-continuation observations). -/
def readSF (s : SFile) (bufLen : Nat) : List Nat × SFile :=
  let bytes := (s.content.drop s.pos).take bufLen
  (bytes, { s with pos := s.pos + bytes.length })

/-- Source `fsFile.Pread` for a seek+sequential-read backing handle (the
`io.ReadSeeker` fallback):
```
if len(p) == 0 { return 0, 0 }
if errno = f.isDirErrno(); errno != 0 { return }
else if f.accessMode == syscall.O_WRONLY { return 0, syscall.EBADF }
// no io.ReaderAt on this handle
currentOffset, err := rs.Seek(0, io.SeekCurrent)
if err != nil { return 0, UnwrapOSError(err) }
defer func() { _, _ = rs.Seek(currentOffset, io.SeekStart) }()
if off != currentOffset {
    if _, err = rs.Seek(off, io.SeekStart); err != nil { return 0, UnwrapOSError(err) }
}
n, err := rs.Read(p)
return n, UnwrapOSError(err)
```
`Seek(0, io.SeekCurrent)` reports the current position and cannot fail; the
deferred restoring seek runs on every exit path after it. -/
def fsPreadSeek (s : SFile) (bufLen : Nat) (off : Int) : (Nat × Errno) × SFile :=
  if bufLen = 0 then ((0, Errno.ok), s)
  else
    match isDirErrnoSF s with
    | (e, s1) =>
      if e ≠ Errno.ok then ((0, e), s1)
      else if s1.accessMode = oWRONLY then ((0, Errno.eBADF), s1)
      else
        let currentOffset : Int := (s1.pos : Int)
        if off ≠ currentOffset then
          match seekSF s1 off with
          | (se, s2) =>
            if se ≠ Errno.ok then ((0, se), (seekSF s2 currentOffset).2)
            else
              let r := readSF s2 bufLen
              ((r.1.length, Errno.ok), (seekSF r.2 currentOffset).2)
        else
          let r := readSF s1 bufLen
          ((r.1.length, Errno.ok), (seekSF r.2 currentOffset).2)

/-- The handle state after a sequence of `Pread` calls (each a buffer
length and an offset). -/
def preadSeq (s : SFile) (calls : List (Nat × Int)) : SFile :=
  calls.foldl (fun st c => (fsPreadSeek st c.1 c.2).2) s

/-! ## wrap_windows.go: the Windows quirk layer `windowsWrappedFile`

The embedded fields are `path`, `flag`, `perm`, `dirInitialized`,
`fileType` (the lazily cached type bits) and `closed`. The native side
(`statFile`, `osFile.Close`, `openFile`, enumeration) is abstracted as a
`WinEnv` of result tables, and every operation returns the list of native
events it performed. -/

/-- A native event performed by the Windows quirk layer. -/
inductive WEv where
  | closeEv
  | openEv (path : String) (flag perm : Nat)
  | enumEv
  | statEv
deriving DecidableEq, Repr

/-- The fields of `windowsWrappedFile`. The replaced `osFile` handle itself
is abstracted away (enumeration results are not modelled). -/
structure WinFile where
  path : String
  flag : Nat
  perm : Nat
  dirInitialized : Bool
  /-- Source `fileType *fs.FileMode`: the cached type bits, nil when not cached. -/
  fileType : Option Nat
  closed : Bool
deriving DecidableEq, Repr

/-- The abstracted native behavior backing a `windowsWrappedFile`. -/
structure WinEnv where
  /-- errno produced by `statFile(w.osFile)`. -/
  statErrno : Errno
  /-- Source `st.Mode` produced by `statFile` when it succeeds. -/
  statMode : Nat
  /-- error returned by `w.osFile.Close()`, if any. -/
  closeErr : Option Errno
  /-- errno produced by `openFile(w.path, w.flag, w.perm)` on reopen. -/
  openErrno : Errno

/-- Source `windowsWrappedFile.Close` (wrap_windows.go):
```
if w.closed { return }
if err = w.osFile.Close(); err != nil { w.closed = true }
return
```
Returns `(error, state, native events)`. Note the source sets `closed` only
when the native close FAILS. -/
def winClose (env : WinEnv) (w : WinFile) : Option Errno × WinFile × List WEv :=
  if w.closed then (none, w, [])
  else
    match env.closeErr with
    | some e => (some e, { w with closed := true }, [WEv.closeEv])
    | none => (none, w, [WEv.closeEv])

/-- Source `windowsWrappedFile.getFileType` (wrap_windows.go):
```
if w.fileType == nil {
    st, errno := statFile(w.osFile)
    if errno != 0 { return 0, nil }
    ft := st.Mode & fs.ModeType
    w.fileType = &ft
    return ft, nil
}
return *w.fileType, nil
```
Returns `((fileType, error), state, native events)`; note every return path
carries a nil error, and a stat failure caches nothing. -/
def getFileTypeW (env : WinEnv) (w : WinFile) :
    (Nat × Option Errno) × WinFile × List WEv :=
  match w.fileType with
  | none =>
    if env.statErrno ≠ Errno.ok then ((0, none), w, [WEv.statEv])
    else
      let ft := (env.statMode &&& modeType)
      ((ft, none), { w with fileType := some ft }, [WEv.statEv])
  | some ft => ((ft, none), w, [])

/-- Source `windowsWrappedFile.requireFile` (wrap_windows.go):
```
if w.closed { err = syscall.EBADF }
else if readOnly && w.flag&syscall.O_RDONLY == 0 { err = syscall.EBADF }
else if ft, err = w.getFileType(); err == nil && isDir != ft.IsDir() {
    if isDir { err = syscall.ENOTDIR } else { err = syscall.EBADF }
} else if err == nil { return nil }
return &fs.PathError{Op: op, Path: w.path, Err: err}
```
The `fs.PathError` wrapping is abstracted: the result is `some err` for the
wrapped error, `none` for nil. -/
def requireFileW (env : WinEnv) (w : WinFile) (readOnly isDir : Bool) :
    Option Errno × WinFile × List WEv :=
  if w.closed then (some Errno.eBADF, w, [])
  else if readOnly ∧ w.flag &&& oRDONLY = 0 then (some Errno.eBADF, w, [])
  else
    match getFileTypeW env w with
    | ((ft, ftErr), w1, t) =>
      if ftErr = none ∧ isDir ≠ fileModeIsDir ft then
        if isDir then (some Errno.eNOTDIR, w1, t)
        else (some Errno.eBADF, w1, t)
      else
        match ftErr with
        | none => (none, w1, t)
        | some e => (some e, w1, t)

/-- Source `windowsWrappedFile.maybeInitDir` (wrap_windows.go):
```
if w.dirInitialized { return nil }
if err := w.osFile.Close(); err != nil { return err }
newW, errno := openFile(w.path, w.flag, w.perm)
if errno != 0 { return &fs.PathError{Op: "OpenFile", Path: w.path, Err: errno} }
w.osFile = newW
w.dirInitialized = true
return nil
``` -/
def maybeInitDirW (env : WinEnv) (w : WinFile) :
    Option Errno × WinFile × List WEv :=
  if w.dirInitialized then (none, w, [])
  else
    match env.closeErr with
    | some e => (some e, w, [WEv.closeEv])
    | none =>
      if env.openErrno ≠ Errno.ok then
        (some env.openErrno, w,
          [WEv.closeEv, WEv.openEv w.path w.flag w.perm])
      else
        (none, { w with dirInitialized := true },
          [WEv.closeEv, WEv.openEv w.path w.flag w.perm])

/-- Source `windowsWrappedFile.Readdir` (the `ReadDir` variant is identical except
for the element type of the result, which is not modelled):
```
if err = w.requireFile("Readdir", false, true); err != nil { return }
else if err = w.maybeInitDir(); err != nil { return }
return w.osFile.Readdir(n)
``` -/
def readdirW (env : WinEnv) (w : WinFile) :
    Option Errno × WinFile × List WEv :=
  match requireFileW env w false true with
  | (some e, w1, t1) => (some e, w1, t1)
  | (none, w1, t1) =>
    match maybeInitDirW env w1 with
    | (some e, w2, t2) => (some e, w2, t1 ++ t2)
    | (none, w2, t2) => (none, w2, t1 ++ t2 ++ [WEv.enumEv])

/-! ## adapter.go: `cleanPath` and the Go standard library `path.Clean`

`cleanPath` strips a single leading slash and calls `path.Clean`. Go's
`path.Clean` (the Plan 9 cleanname algorithm) is embedded below over
`List Char`, with the output buffer kept in reverse order; a fuel parameter
(initialized to the input length, which every iteration strictly decreases
toward) makes the recursion structural. -/

/-- The inner backtracking loop of `path.Clean`'s `..` case:
```
for out.w > dotdot && out.index(out.w) != '/' { out.w-- }
```
`last` is the character most recently dropped, `out` the kept prefix in
reverse order, `dd` the dotdot barrier. -/
def popLoop : Char → List Char → Nat → List Char
  | _, [], _ => []
  | last, c :: rest, dd =>
    if last = '/' ∨ rest.length + 1 ≤ dd then c :: rest
    else popLoop c rest dd

/-- The `..` backtrack of `path.Clean` (`case out.w > dotdot`): drop the
last element of the output (`out.w--`) and continue through `popLoop`. -/
def popSegment (out : List Char) (dd : Nat) : List Char :=
  match out with
  | [] => []
  | c :: rest => popLoop c rest dd

/-- The `..` case of `path.Clean`'s main loop:
```
switch {
case out.w > dotdot:
    out.w--
    for out.w > dotdot && out.index(out.w) != '/' { out.w-- }
case !rooted:
    if out.w > 0 { out.append('/') }
    out.append('.'); out.append('.')
    dotdot = out.w
}
``` -/
def stepDotDot (rooted : Bool) (out : List Char) (dd : Nat) : List Char × Nat :=
  if out.length > dd then (popSegment out dd, dd)
  else if !rooted then
    let out1 := if out.length > 0 then '/' :: out else out
    let out2 := '.' :: '.' :: out1
    (out2, out2.length)
  else (out, dd)

/-- The main loop of `path.Clean`, fuelled (`fuel` starts at the input
length; every iteration consumes at least one input character):
```
for r < n {
    switch {
    case path[r] == '/': r++
    case path[r] == '.' && (r+1 == n || path[r+1] == '/'): r++
    case path[r] == '.' && path[r+1] == '.' && (r+2 == n || path[r+2] == '/'):
        r += 2
        ... // stepDotDot
    default:
        if rooted && out.w != 1 || !rooted && out.w != 0 { out.append('/') }
        for ; r < n && path[r] != '/'; r++ { out.append(path[r]) }
    }
}
``` -/
def cleanLoop (rooted : Bool) : Nat → List Char → List Char → Nat → List Char
  | 0, _, out, _ => out
  | _ + 1, [], out, _ => out
  | fuel + 1, c :: rest, out, dd =>
    if c = '/' then cleanLoop rooted fuel rest out dd
    else if c = '.' ∧ (rest = [] ∨ rest.head? = some '/') then
      cleanLoop rooted fuel rest out dd
    else if c = '.' ∧ rest.head? = some '.' ∧
        (rest.tail = [] ∨ rest.tail.head? = some '/') then
      let p := stepDotDot rooted out dd
      cleanLoop rooted fuel rest.tail p.1 p.2
    else
      let seg := c :: rest.takeWhile (fun x => x ≠ '/')
      let out1 :=
        if rooted then (if out.length = 1 then out else '/' :: out)
        else (if out.length = 0 then out else '/' :: out)
      cleanLoop rooted fuel (rest.dropWhile (fun x => x ≠ '/'))
        (seg.reverse ++ out1) dd

/-- Go `path.Clean`:
```
if path == "" { return "." }
rooted := path[0] == '/'
// ... main loop over the bytes of path ...
if out.w == 0 { return "." }
return out.string()
``` -/
def goPathClean (s : String) : String :=
  match h : s.data with
  | [] => "."
  | c :: _ =>
    let l := s.data
    let rooted := c = '/'
    let body := if rooted then l.tail else l
    let out0 : List Char := if rooted then ['/'] else []
    let dd0 : Nat := if rooted then 1 else 0
    let outRev := cleanLoop rooted body.length body out0 dd0
    if outRev.length = 0 then "." else String.mk outRev.reverse

/-- Source `cleanPath` (adapter.go):
```
if len(name) == 0 { return name }
cleaned := name
if name[0] == '/' { cleaned = name[1:] }
cleaned = path.Clean(cleaned)
return cleaned
``` -/
def cleanPath (name : String) : String :=
  if name.length = 0 then name
  else
    let cleaned := if name.data.head? = some '/' then String.mk name.data.tail
      else name
    goPathClean cleaned

/-- Source `adapter.OpenFile` (adapter.go):
```
path = cleanPath(path)
f, err := a.fs.Open(path)
return platform.NewFsFile(path, flag, f), platform.UnwrapOSError(err)
```
The underlying namespace's `Open` is abstracted as `fsOpen`; the model
returns the path actually passed to it together with its result. -/
def adapter_OpenFile {α : Type} (fsOpen : String → α) (path : String)
    (flag perm : Nat) : String × α :=
  let p := cleanPath path
  (p, fsOpen p)

/-- Spec-side description of the adapter's path handling, for comparison:
a single leading separator stripped if present. -/
def specStripSlash (p : String) : String :=
  if p.data.head? = some '/' then String.mk p.data.tail else p

/-! ## Theorems -/

/-- C1: `readFS.OpenFile` masks the flag down to `O_RDONLY|O_WRONLY|O_RDWR`;
when the masked result is `O_WRONLY` or `O_RDWR` it fails with ENOSYS for
every possible wrapped filesystem (so the wrapped filesystem is never
consulted); otherwise it delegates, and on success wraps the inner file in
the `readFile` decorator, while an inner error passes through with no file. -/
theorem c1_readfs_openfile_masks_write_intent {α : Type}
    (innerOpen : String → Nat → Nat → Option α × Errno)
    (path : String) (flag perm : Nat) :
    (flag &&& (oRDONLY ||| oWRONLY ||| oRDWR) = oWRONLY ∨
     flag &&& (oRDONLY ||| oWRONLY ||| oRDWR) = oRDWR →
      readFS_OpenFile innerOpen path flag perm = (none, Errno.eNOSYS)) ∧
    (¬(flag &&& (oRDONLY ||| oWRONLY ||| oRDWR) = oWRONLY ∨
       flag &&& (oRDONLY ||| oWRONLY ||| oRDWR) = oRDWR) →
      (∀ f : α, innerOpen path flag perm = (some f, Errno.ok) →
        readFS_OpenFile innerOpen path flag perm = (some ⟨f⟩, Errno.ok)) ∧
      (∀ (r : Option α) (e : Errno), e ≠ Errno.ok →
        innerOpen path flag perm = (r, e) →
        readFS_OpenFile innerOpen path flag perm = (none, e))) := by
  constructor
  · intro h
    simp only [readFS_OpenFile, if_pos h]
  · intro h
    constructor
    · intro f hf
      simp only [readFS_OpenFile, if_neg h, hf]
      simp
    · intro r e he hre
      simp only [readFS_OpenFile, if_neg h, hre]
      simp [he]

/-- Witness for C1 at concrete inputs: opening with `O_WRONLY` (flag 1) is
refused with ENOSYS; opening with pure read intent (flag 0) against an inner
filesystem that succeeds returns the wrapped file. -/
theorem c1_witness :
    readFS_OpenFile (fun _ _ _ => (some 7, Errno.ok)) "a.txt" 1 0 =
      (none, Errno.eNOSYS) ∧
    readFS_OpenFile (fun _ _ _ => (some 7, Errno.ok)) "a.txt" 0 0 =
      (some ⟨7⟩, Errno.ok) := by
  constructor
  · exact (c1_readfs_openfile_masks_write_intent
      (fun _ _ _ => (some 7, Errno.ok)) "a.txt" 1 0).1 (by decide)
  · exact ((c1_readfs_openfile_masks_write_intent
      (fun _ _ _ => (some 7, Errno.ok)) "a.txt" 0 0).2 (by decide)).1 7 rfl

/-- C7: every path-mutating operation of `readFS` returns EROFS, for every
path argument and every wrapped filesystem (the inner filesystem parameter is
arbitrary and never consulted), and EROFS is distinct from ENOSYS. -/
theorem c7_readfs_mutations_erofs {α : Type} (innerFS : α)
    (p q : String) (perm : Nat) (uid gid : Int)
    (times : Option (Int × Int)) (follow : Bool) (size : Int) :
    readFS_Mkdir innerFS p perm = Errno.eROFS ∧
    readFS_Chmod innerFS p perm = Errno.eROFS ∧
    readFS_Chown innerFS p uid gid = Errno.eROFS ∧
    readFS_Lchown innerFS p uid gid = Errno.eROFS ∧
    readFS_Rename innerFS p q = Errno.eROFS ∧
    readFS_Rmdir innerFS p = Errno.eROFS ∧
    readFS_Link innerFS p q = Errno.eROFS ∧
    readFS_Symlink innerFS p q = Errno.eROFS ∧
    readFS_Unlink innerFS p = Errno.eROFS ∧
    readFS_Utimens innerFS p times follow = Errno.eROFS ∧
    readFS_Truncate innerFS p size = Errno.eROFS ∧
    Errno.eROFS ≠ Errno.eNOSYS := by
  refine ⟨rfl, rfl, rfl, rfl, rfl, rfl, rfl, rfl, rfl, rfl, rfl, by decide⟩

/-- C4 counterexample: for a `readFile` wrapping a directory handle
(`IsDir` reports `(true, 0)`), `Chmod` returns EBADF, not the EISDIR that
re-checking the handle's type (as `writeErr` does) would produce. So not
every mutating method of the read-only file decorator chooses its error by
re-checking the handle's type. -/
theorem c4_counterexample :
    readFile_Chmod ⟨(true, Errno.ok)⟩ 420 = Errno.eBADF ∧
    readFile_writeErr ⟨(true, Errno.ok)⟩ = Errno.eISDIR ∧
    Errno.eBADF ≠ Errno.eISDIR := by
  refine ⟨rfl, by decide, by decide⟩

/-- C4 amended: every mutating method of the read-only file decorator fails,
but only `Write`, `Pwrite` and `Truncate` choose the error by re-checking the
handle's type (EISDIR for a directory, EBADF otherwise, propagating an
`IsDir` failure); `Chmod`, `Chown` and `Utimens` return EBADF
unconditionally, even on a directory handle. -/
theorem c4_amended (d : Bool) (e : Errno) (bufLen : Nat) (off size : Int)
    (mode : Nat) (uid gid : Int) (times : Option (Int × Int)) :
    (e = Errno.ok →
      readFile_Write ⟨(d, e)⟩ bufLen =
        (0, if d then Errno.eISDIR else Errno.eBADF) ∧
      readFile_Pwrite ⟨(d, e)⟩ bufLen off =
        (0, if d then Errno.eISDIR else Errno.eBADF) ∧
      readFile_Truncate ⟨(d, e)⟩ size =
        (if d then Errno.eISDIR else Errno.eBADF)) ∧
    (e ≠ Errno.ok →
      readFile_Write ⟨(d, e)⟩ bufLen = (0, e) ∧
      readFile_Pwrite ⟨(d, e)⟩ bufLen off = (0, e) ∧
      readFile_Truncate ⟨(d, e)⟩ size = e) ∧
    readFile_Chmod ⟨(d, e)⟩ mode = Errno.eBADF ∧
    readFile_Chown ⟨(d, e)⟩ uid gid = Errno.eBADF ∧
    readFile_Utimens ⟨(d, e)⟩ times = Errno.eBADF := by
  refine ⟨?_, ?_, rfl, rfl, rfl⟩
  · intro he
    subst he
    simp [readFile_Write, readFile_Pwrite, readFile_Truncate, readFile_writeErr]
  · intro he
    simp [readFile_Write, readFile_Pwrite, readFile_Truncate, readFile_writeErr, he]

/-- Witness for C4 amended, at a directory handle with a successful `IsDir`:
`Write` fails EISDIR by re-checking, while `Chmod` fails EBADF. -/
theorem c4_witness :
    readFile_Write ⟨(true, Errno.ok)⟩ 3 = (0, Errno.eISDIR) ∧
    readFile_Chmod ⟨(true, Errno.ok)⟩ 420 = Errno.eBADF := by
  have h := c4_amended true Errno.ok 3 0 0 420 0 0 none
  exact ⟨(h.1 rfl).1, h.2.2.1⟩


/-- Helper: `isDirErrnoM` changes at most the cached file type — access mode
is preserved — and its native trace is `[]` or a single stat. -/
lemma isDirErrnoM_frame (b : MBack) (s : MFile) :
    ((isDirErrnoM b s).2.1).accessMode = s.accessMode ∧
    ((isDirErrnoM b s).2.2 = [] ∨ (isDirErrnoM b s).2.2 = [NOp.statN]) := by
  rcases s with ⟨am, cached⟩
  rcases cached with _ | ft <;>
    simp only [isDirErrnoM, isDirM, cachedStatM, mStat] <;>
    split_ifs <;> simp_all

/-- C3 counterexample: on an `fsFile` open read-write over a directory whose
type is not yet cached, `Write` with a zero-length buffer performs a native
stat and fails EISDIR instead of short-circuiting to success: the zero-length
short-circuit of `Write` sits after the directory check, unlike `Read`'s. -/
theorem c3_counterexample :
    mWrite
      ⟨Errno.ok, modeDir, true, fun n => (n, Errno.ok), true,
        fun n _ => (n, Errno.ok), true, fun n => (n, Errno.ok)⟩
      ⟨oRDWR, none⟩ 0 =
      ((0, Errno.eISDIR), ⟨oRDWR, some modeDir⟩, [NOp.statN]) ∧
    Errno.eISDIR ≠ Errno.ok := by
  constructor
  · have hm : modeDir &&& modeType = modeDir := by decide
    simp only [mWrite, isDirErrnoM, isDirM, cachedStatM, mStat]
    norm_num [hm]
    simp [oRDWR, oRDONLY]
  · decide

/-- C3 amended: `Read` with a zero-length buffer always short-circuits to
success with no native operation; `Write` with a zero-length buffer
short-circuits to success (with no native write) only once the directory
check and the access-mode check pass, and a read-only file's zero-length
`Write` instead fails EBADF. -/
theorem c3_amended :
    (∀ (b : MBack) (s : MFile), mRead b s 0 = ((0, Errno.ok), s, [])) ∧
    (∀ (b : MBack) (s : MFile),
      (isDirErrnoM b s).1 = Errno.ok → s.accessMode ≠ oRDONLY →
        (mWrite b s 0).1 = (0, Errno.ok) ∧
        NOp.writeN ∉ (mWrite b s 0).2.2) ∧
    (∀ (b : MBack) (s : MFile),
      (isDirErrnoM b s).1 = Errno.ok → s.accessMode = oRDONLY →
        (mWrite b s 0).1 = (0, Errno.eBADF)) := by
  refine ⟨fun b s => rfl, ?_, ?_⟩
  · intro b s h1 h2
    have hf := isDirErrnoM_frame b s
    rcases hd : isDirErrnoM b s with ⟨e, s1, t⟩
    rw [hd] at h1 hf
    simp only at h1 hf
    subst h1
    have ham : ¬s1.accessMode = oRDONLY := by rw [hf.1]; exact h2
    simp only [mWrite, hd]
    simp only [reduceCtorEq, ite_false, if_neg ham, if_pos rfl]
    refine ⟨rfl, ?_⟩
    rcases hf.2 with h | h <;> simp [h]
  · intro b s h1 h2
    have hf := isDirErrnoM_frame b s
    rcases hd : isDirErrnoM b s with ⟨e, s1, t⟩
    rw [hd] at h1 hf
    simp only at h1 hf
    subst h1
    simp [mWrite, hd, hf.1, h2]

/-- Witness for C3 amended at concrete inputs: a cached regular file open
read-write has `Write` of an empty buffer succeed with no native write, and
the same file opened read-only has it fail EBADF. -/
theorem c3_witness :
    (mWrite
      ⟨Errno.ok, 0, true, fun n => (n, Errno.ok), true,
        fun n _ => (n, Errno.ok), true, fun n => (n, Errno.ok)⟩
      ⟨oRDWR, some 0⟩ 0).1 = (0, Errno.ok) ∧
    (mWrite
      ⟨Errno.ok, 0, true, fun n => (n, Errno.ok), true,
        fun n _ => (n, Errno.ok), true, fun n => (n, Errno.ok)⟩
      ⟨oRDONLY, some 0⟩ 0).1 = (0, Errno.eBADF) := by
  constructor
  · exact (c3_amended.2.1 _ ⟨oRDWR, some 0⟩ (by decide) (by decide)).1
  · exact c3_amended.2.2 _ ⟨oRDONLY, some 0⟩ (by decide) (by decide)

/-- C5 counterexample: `fsFile.Pread` applies no negative-offset check of its
own. A readable, non-directory file whose backing `io.ReaderAt` accepts any
offset (returning success) makes `Pread` at offset -5 with a 1-byte buffer
succeed rather than fail EINVAL. -/
theorem c5_counterexample :
    mPread
      ⟨Errno.ok, 0, true, fun n => (n, Errno.ok), true,
        fun n _ => (n, Errno.ok), true, fun n => (n, Errno.ok)⟩
      ⟨oRDONLY, some 0⟩ 1 (-5) =
      ((1, Errno.ok), ⟨oRDONLY, some 0⟩, [NOp.readAtN]) ∧
    Errno.ok ≠ Errno.eINVAL := by
  constructor
  · decide
  · decide

/-- C5 amended: for a readable, non-directory `fsFile` whose backing handle
supports direct positional read, `Pread` with a non-empty buffer delegates
the offset unchecked (negative offsets included): the count and errno
returned are exactly those of the backing `ReadAt`, so EINVAL on a negative
offset arises only when the backing handle itself reports it. -/
theorem c5_amended (b : MBack) (s : MFile) (bufLen : Nat) (off : Int)
    (n : Nat) (e : Errno) :
    b.hasReaderAt = true →
    (isDirErrnoM b s).1 = Errno.ok →
    s.accessMode ≠ oWRONLY →
    bufLen ≠ 0 →
    b.readAtRes bufLen off = (n, e) →
    (mPread b s bufLen off).1 = (n, e) := by
  intro hra h1 h2 h3 h4
  have hf := isDirErrnoM_frame b s
  rcases hd : isDirErrnoM b s with ⟨er, s1, t⟩
  rw [hd] at h1 hf
  simp only at h1 hf
  subst h1
  have ham : ¬s1.accessMode = oWRONLY := by rw [hf.1]; exact h2
  simp [mPread, hd, h3, ham, hra, h4]

/-- Witness for C5 amended at the offset -5, 1-byte-buffer instance over a
backing `ReadAt` that succeeds at any offset. -/
theorem c5_witness :
    (mPread
      ⟨Errno.ok, 0, true, fun n => (n, Errno.ok), true,
        fun n _ => (n, Errno.ok), true, fun n => (n, Errno.ok)⟩
      ⟨oRDONLY, some 0⟩ 1 (-5)).1 = (1, Errno.ok) := by
  exact c5_amended _ ⟨oRDONLY, some 0⟩ 1 (-5) 1 Errno.ok rfl (by decide)
    (by decide) (by decide) rfl
lemma isDirErrnoSF_frame (s : SFile) :
    ((isDirErrnoSF s).2).pos = s.pos ∧
    ((isDirErrnoSF s).2).content = s.content ∧
    ((isDirErrnoSF s).2).accessMode = s.accessMode := by
  rcases s with ⟨am, se, ft, cached, co, p⟩
  rcases cached with _ | c <;>
    simp only [isDirErrnoSF, statSF] <;>
    split_ifs <;> simp_all

lemma seekSF_restore (s : SFile) (target : Nat) :
    (seekSF s (target : Int)).2 = { s with pos := target } := by
  unfold seekSF
  rw [if_neg (by omega : ¬((target : Int) < 0))]
  simp

lemma fsPreadSeek_frame (s : SFile) (bufLen : Nat) (off : Int) :
    ((fsPreadSeek s bufLen off).2).pos = s.pos ∧
    ((fsPreadSeek s bufLen off).2).content = s.content := by
  have hf := isDirErrnoSF_frame s
  rcases hd : isDirErrnoSF s with ⟨e, s1⟩
  rw [hd] at hf
  simp only at hf
  unfold fsPreadSeek
  rw [hd]
  by_cases h0 : bufLen = 0
  · rw [if_pos h0]
    exact ⟨rfl, rfl⟩
  · rw [if_neg h0]
    dsimp only
    by_cases h1 : e ≠ Errno.ok
    · rw [if_pos h1]
      exact ⟨hf.1, hf.2.1⟩
    · rw [if_neg h1]
      by_cases h2 : s1.accessMode = oWRONLY
      · rw [if_pos h2]
        exact ⟨hf.1, hf.2.1⟩
      · rw [if_neg h2]
        by_cases h3 : off ≠ (s1.pos : Int)
        · rw [if_pos h3]
          rcases hs : seekSF s1 off with ⟨sc, s2⟩
          have hs2 : s2.content = s1.content := by
            unfold seekSF at hs
            split_ifs at hs <;> cases hs <;> rfl
          dsimp only
          by_cases h5 : sc ≠ Errno.ok
          · rw [if_pos h5, seekSF_restore s2 s1.pos]
            exact ⟨hf.1, hs2.trans hf.2.1⟩
          · rw [if_neg h5, seekSF_restore ((readSF s2 bufLen).2) s1.pos]
            exact ⟨hf.1, hs2.trans hf.2.1⟩
        · rw [if_neg h3, seekSF_restore ((readSF s1 bufLen).2) s1.pos]
          exact ⟨hf.1, hf.2.1⟩

/-- C6: on the seek+sequential-read fallback of `fsFile.Pread`, the
handle's sequential offset (and its content) is unchanged on every exit
path — error exits included — and after any sequence of such `Pread` calls a
plain sequential `Read` returns exactly the bytes it would have returned
before any of them. -/
theorem c6_pread_fallback_restores_offset :
    (∀ (s : SFile) (bufLen : Nat) (off : Int),
      ((fsPreadSeek s bufLen off).2).pos = s.pos ∧
      ((fsPreadSeek s bufLen off).2).content = s.content) ∧
    (∀ (s : SFile) (calls : List (Nat × Int)),
      (preadSeq s calls).pos = s.pos ∧ (preadSeq s calls).content = s.content) ∧
    (∀ (s : SFile) (calls : List (Nat × Int)) (n : Nat),
      (readSF (preadSeq s calls) n).1 = (readSF s n).1) := by
  have hseq : ∀ (calls : List (Nat × Int)) (s : SFile),
      (preadSeq s calls).pos = s.pos ∧ (preadSeq s calls).content = s.content := by
    intro calls
    induction calls with
    | nil => intro s; exact ⟨rfl, rfl⟩
    | cons c rest ih =>
      intro s
      have h1 := fsPreadSeek_frame s c.1 c.2
      have h2 := ih ((fsPreadSeek s c.1 c.2).2)
      simp only [preadSeq, List.foldl_cons] at h2 ⊢
      exact ⟨h2.1.trans h1.1, h2.2.trans h1.2⟩
  refine ⟨fun s bufLen off => fsPreadSeek_frame s bufLen off,
    fun s calls => hseq calls s, ?_⟩
  intro s calls n
  have h := hseq calls s
  simp [readSF, h.1, h.2]

/-- C2 (code bug): `windowsWrappedFile.Close` sets `closed` only when the
NATIVE close fails (`if err = w.osFile.Close(); err != nil { w.closed = true }`),
so after a successful close the file is still not marked closed and a second
`Close` invokes the native close on the backing resource again: two native
close events across two calls on a handle whose native close succeeds,
with `closed` still false — close is neither idempotent in effect nor a
release-exactly-once, contradicting the field's own comment
("closed is true when closed was called"). -/
theorem c2_close_releases_native_resource_twice :
    winClose ⟨Errno.ok, 0, none, Errno.ok⟩ ⟨"f.txt", 0, 0, false, none, false⟩ =
      (none, ⟨"f.txt", 0, 0, false, none, false⟩, [WEv.closeEv]) ∧
    winClose ⟨Errno.ok, 0, none, Errno.ok⟩
      ((winClose ⟨Errno.ok, 0, none, Errno.ok⟩
          ⟨"f.txt", 0, 0, false, none, false⟩).2.1) =
      (none, ⟨"f.txt", 0, 0, false, none, false⟩, [WEv.closeEv]) ∧
    ((winClose ⟨Errno.ok, 0, none, Errno.ok⟩
        ⟨"f.txt", 0, 0, false, none, false⟩).2.2.count WEv.closeEv) +
      ((winClose ⟨Errno.ok, 0, none, Errno.ok⟩
          ((winClose ⟨Errno.ok, 0, none, Errno.ok⟩
              ⟨"f.txt", 0, 0, false, none, false⟩).2.1)).2.2.count WEv.closeEv) = 2 := by
  refine ⟨rfl, rfl, rfl⟩

/-- C8: on an open directory handle of the Windows quirk layer (cached
directory type, not yet dir-initialized) whose native close and reopen
succeed, the first enumeration call closes the native handle, reopens it
with the same path, flag and perm, and only then enumerates, setting the
`dirInitialized` flag; a later enumeration call on the resulting handle
performs the enumeration alone — no closing and no reopen. -/
theorem c8_first_readdir_reopens_once (env : WinEnv) (w : WinFile) :
    w.closed = false →
    w.fileType = some modeDir →
    w.dirInitialized = false →
    env.closeErr = none →
    env.openErrno = Errno.ok →
    readdirW env w =
      (none, { w with dirInitialized := true },
        [WEv.closeEv, WEv.openEv w.path w.flag w.perm, WEv.enumEv]) ∧
    readdirW env { w with dirInitialized := true } =
      (none, { w with dirInitialized := true }, [WEv.enumEv]) := by
  intro h1 h2 h3 h4 h5
  have hd : fileModeIsDir modeDir = true := by decide
  constructor <;>
    simp [readdirW, requireFileW, getFileTypeW, maybeInitDirW,
      h1, h2, h3, h4, h5, hd]

/-- Witness for C8 at a concrete directory handle and native environment. -/
theorem c8_witness :
    readdirW ⟨Errno.ok, 0, none, Errno.ok⟩
      ⟨"d", 65536, 0, false, some modeDir, false⟩ =
      (none, ⟨"d", 65536, 0, true, some modeDir, false⟩,
        [WEv.closeEv, WEv.openEv "d" 65536 0, WEv.enumEv]) ∧
    readdirW ⟨Errno.ok, 0, none, Errno.ok⟩
      ⟨"d", 65536, 0, true, some modeDir, false⟩ =
      (none, ⟨"d", 65536, 0, true, some modeDir, false⟩, [WEv.enumEv]) := by
  exact c8_first_readdir_reopens_once ⟨Errno.ok, 0, none, Errno.ok⟩
    ⟨"d", 65536, 0, false, some modeDir, false⟩ rfl rfl rfl rfl rfl

/-- C10: when the native stat used by `getFileType` fails (with any errno),
`getFileType` returns file type zero with a nil error and caches nothing,
and `requireFile` consequently classifies the handle as a non-directory:
a directory-only operation fails ENOTDIR by that misclassification (the
stat errno is never surfaced), while a non-directory operation proceeds. -/
theorem c10_stat_failure_masked_as_regular_file (env : WinEnv) (w : WinFile) :
    w.fileType = none →
    env.statErrno ≠ Errno.ok →
    w.closed = false →
    getFileTypeW env w = ((0, none), w, [WEv.statEv]) ∧
    requireFileW env w false true = (some Errno.eNOTDIR, w, [WEv.statEv]) ∧
    requireFileW env w false false = (none, w, [WEv.statEv]) := by
  intro h1 h2 h3
  have hz : fileModeIsDir 0 = false := by decide
  refine ⟨?_, ?_, ?_⟩ <;>
    simp [getFileTypeW, requireFileW, h1, h2, h3, hz]

/-- Witness for C10 with a stat failing with an arbitrary errno (5). -/
theorem c10_witness :
    getFileTypeW ⟨Errno.eOther 5, 0, none, Errno.ok⟩ ⟨"f", 0, 0, false, none, false⟩ =
      ((0, none), ⟨"f", 0, 0, false, none, false⟩, [WEv.statEv]) ∧
    requireFileW ⟨Errno.eOther 5, 0, none, Errno.ok⟩ ⟨"f", 0, 0, false, none, false⟩
      false true = (some Errno.eNOTDIR, ⟨"f", 0, 0, false, none, false⟩, [WEv.statEv]) := by
  have h := c10_stat_failure_masked_as_regular_file
    ⟨Errno.eOther 5, 0, none, Errno.ok⟩ ⟨"f", 0, 0, false, none, false⟩
    rfl (by decide) rfl
  exact ⟨h.1, h.2.1⟩

/-- C9: `adapter.OpenFile` passes the underlying namespace the input path
with a single leading '/' stripped when present and then lexically cleaned
by `path.Clean`; an empty input is passed through unchanged, and the input
"/sub/./file.txt" reaches the namespace as "sub/file.txt". -/
theorem c9_adapter_openfile_clean_path {α : Type} (fsOpen : String → α)
    (flag perm : Nat) :
    (∀ path : String, path ≠ "" →
      (adapter_OpenFile fsOpen path flag perm).1 =
        goPathClean (specStripSlash path)) ∧
    (adapter_OpenFile fsOpen "" flag perm).1 = "" ∧
    (adapter_OpenFile fsOpen "/sub/./file.txt" flag perm).1 = "sub/file.txt" := by
  refine ⟨?_, rfl, ?_⟩
  · intro path hp
    have hl : ¬path.length = 0 := by
      cases path
      simp_all [String.length]
      intro h
      simp_all [List.length_eq_zero]
    simp [adapter_OpenFile, cleanPath, specStripSlash, hl]
  · show cleanPath "/sub/./file.txt" = "sub/file.txt"
    decide

/-- Witness for C9 at the concrete input "/sub/./file.txt". -/
theorem c9_witness :
    (adapter_OpenFile (fun s => s) "/sub/./file.txt" 0 0).1 =
      goPathClean (specStripSlash "/sub/./file.txt") ∧
    goPathClean (specStripSlash "/sub/./file.txt") = "sub/file.txt" := by
  exact ⟨(c9_adapter_openfile_clean_path (fun s => s) 0 0).1
    "/sub/./file.txt" (by decide), by decide⟩
